import Mathlib

/-!
# Verification of the gomarket forecast / chart pipeline (src/main.go)

Shallow embedding of the forecast-invocation and chart-assembly pipeline of
`src/main.go`:

* `callPythonARIMA` (main.go:70-113): stages the embedded predictor binary into
  a temporary file (`ioutil.TempFile`), registers `defer os.Remove`, runs the
  staged binary with the JSON payload `{"prices": [...]}` on its standard
  input, and decodes its standard output as a JSON array of floats.
* `plotData` (main.go:116-147): builds a two-series chart (trailing 90-point
  historical window plus forecast continuation) and saves it as an 8x4 inch
  PNG at `plot.png`.
* the fetch-button handler in `main` (main.go:161-203): fetch, guard
  `len(prices) < 2`, invoke, plot, update the image.

Modelling conventions:

* `float64` price and forecast values are modelled as `ℚ`.  The pipeline only
  copies these values (no arithmetic is performed on them), so any type with
  decidable equality is faithful; `ℚ` keeps witnesses computable.
* Horizontal chart indices are `float64(i)` in Go for natural `i` well inside
  the exact range of `float64`; they are modelled as `ℕ`.
* `json.Marshal` / `json.Unmarshal` (Go `encoding/json`) are modelled at the
  structural level with a `Json` inductive; the element-type mismatch
  diagnostics of `json.Unmarshal` into `[]float64` are reproduced
  structurally, and the byte-level syntax diagnostic for unparseable output is
  supplied by the environment (`RawStdout.invalid` carries both the raw text
  and the diagnostic Go would report).
* Everything external to the process (temp-file creation, file writes, the
  child process run, the chart file save) is an explicit `ArimaWorld` /
  `saveErr` input, and the side effects performed are recorded as an ordered
  `Event` trace, with a Go `defer` modelled by appending its event at every
  return point it covers.
-/

/-- Structural JSON values, modelling Go `encoding/json` data. -/
inductive Json where
  | null : Json
  | bool (b : Bool) : Json
  | num (q : ℚ) : Json
  | str (s : String) : Json
  | arr (xs : List Json) : Json
  | obj (fields : List (String × Json)) : Json

/-- Go type names as printed by `encoding/json` diagnostics. -/
def jsonTypeName : Json → String
  | .null => "null"
  | .bool _ => "bool"
  | .num _ => "number"
  | .str _ => "string"
  | .arr _ => "array"
  | .obj _ => "object"

/-- The decode step `json.Unmarshal(out, &predictions)` with
`predictions : []float64` (main.go:106-107), modelled on already-parsed JSON:
succeeds exactly on a numeric array (or `null`, which Go unmarshals into a nil
slice), and otherwise fails with the Go unmarshal-type diagnostic. -/
def unmarshalFloats : Json → Except String (List ℚ)
  | .null => .ok []
  | .arr xs =>
      xs.mapM fun j =>
        match j with
        | .num q => Except.ok q
        | j => Except.error
            ("json: cannot unmarshal " ++ jsonTypeName j ++
              " into Go value of type float64")
  | j => .error
      ("json: cannot unmarshal " ++ jsonTypeName j ++
        " into Go value of type []float64")

/-- The predictor's captured standard output: either text that parses as a
JSON value, or unparseable text together with the syntax diagnostic Go's
`json.Unmarshal` reports for it (character/offset information; never the raw
text itself). -/
inductive RawStdout where
  | invalid (text : String) (diag : String) : RawStdout
  | valid (j : Json) : RawStdout

/-- Decoding the captured stdout, as `json.Unmarshal(out.Bytes(), &predictions)`
does at main.go:107. -/
def decodeStdout : RawStdout → Except String (List ℚ)
  | .invalid _ diag => .error diag
  | .valid j => unmarshalFloats j

/-- Outcome of `cmd.Run()` (main.go:100) as determined by the environment:
either the OS refuses to spawn the process, or the process runs to completion
with an exit status and captured stdout/stderr. -/
inductive RunResult where
  | launchFailure (msg : String) : RunResult
  | exited (status : ℕ) (stdout : RawStdout) (stderr : String) : RunResult

/-- The environment of one `callPythonARIMA` invocation: the result of
`ioutil.TempFile` (error, or the unique file name), the result of writing the
embedded binary into it, and the behaviour of the child process. -/
structure ArimaWorld where
  tempFile : Except String String
  writeTemp : Except String Unit
  run : RunResult

/-- Go `error` values returned by `callPythonARIMA`, tagged by the operation
that produced them; the payload is the Go `err.Error()` message. -/
inductive GoError where
  | tempFileError (msg : String) : GoError
  | writeError (msg : String) : GoError
  | execError (msg : String) : GoError
  | unmarshalError (msg : String) : GoError

/-- The `err.Error()` string of a returned Go error. -/
def GoError.message : GoError → String
  | .tempFileError msg => msg
  | .writeError msg => msg
  | .execError msg => msg
  | .unmarshalError msg => msg

/-- Observable side effects of one fetch-button request, in order. -/
inductive Event where
  | createTemp (name : String) : Event
  | spawn (name : String) : Event
  | writeStdin (payload : Json) : Event
  | closeStdin : Event
  | collectOutputs : Event
  | removeTemp (name : String) : Event
  | writeChart (path : String) : Event
  | updateImage : Event

def Event.isSpawn : Event → Bool
  | .spawn _ => true
  | _ => false

def Event.isRemoveTemp : Event → Bool
  | .removeTemp _ => true
  | _ => false

def Event.isWriteChart : Event → Bool
  | .writeChart _ => true
  | _ => false

/-- The stdin payload carried by a `writeStdin` event, if any. -/
def Event.stdinPayload : Event → Option Json
  | .writeStdin payload => some payload
  | _ => none

/-- The request payload `data := map[...]{"prices": prices}` marshalled by
`json.Marshal(data)` (main.go:71-74), modelled structurally: the single
payload written to the standard input of the predictor. -/
def forecastRequestJSON (prices : List ℚ) : Json :=
  .obj [("prices", .arr (prices.map .num))]

/-- Result of one `callPythonARIMA` call: the Go return value, the ordered
side-effect trace, and the lines written to the log. -/
structure ArimaResult where
  result : Except GoError (List ℚ)
  events : List Event
  log : List String

/-- The function `callPythonARIMA` (main.go:70-113).  `json.Marshal` of the request map is
total here (its only failure mode, non-finite floats, cannot arise for `ℚ`
values decoded from JSON).  The `defer os.Remove(tempExe.Name())` of
main.go:84 is registered right after `ioutil.TempFile` succeeds, so every
return point after that appends `removeTemp` as its final event.  `cmd.Run`
with `cmd.Stdin = bytes.NewReader(jsonData)` delivers the whole payload,
closes the child's stdin, and collects stdout/stderr until termination; a
launch failure spawns nothing.  On a run error the function logs the error and
the captured stderr (main.go:102) and returns the error. -/
def callPythonARIMA (w : ArimaWorld) (prices : List ℚ) : ArimaResult :=
  let jsonData := forecastRequestJSON prices
  match w.tempFile with
  | .error e => ⟨.error (.tempFileError e), [], []⟩
  | .ok name =>
    match w.writeTemp with
    | .error e => ⟨.error (.writeError e), [.createTemp name, .removeTemp name], []⟩
    | .ok _ =>
      match w.run with
      | .launchFailure msg =>
          ⟨.error (.execError msg),
            [.createTemp name, .removeTemp name],
            ["Error calling ARIMA prediction: " ++ msg ++ " Stderr: "]⟩
      | .exited status out stderrText =>
          let runEvents : List Event :=
            [.createTemp name, .spawn name, .writeStdin jsonData,
              .closeStdin, .collectOutputs, .removeTemp name]
          if status ≠ 0 then
            ⟨.error (.execError ("exit status " ++ toString status)),
              runEvents,
              ["Error calling ARIMA prediction: exit status " ++
                toString status ++ " Stderr: " ++ stderrText]⟩
          else
            match decodeStdout out with
            | .error diag => ⟨.error (.unmarshalError diag), runEvents, []⟩
            | .ok preds => ⟨.ok preds, runEvents, []⟩

/-! ## The chart builder (`plotData`, main.go:116-147) -/

/-- Colour values, `color.RGBA` from the Go `image/color` package. -/
structure RGBA where
  r : ℕ
  g : ℕ
  b : ℕ
  a : ℕ
deriving DecidableEq

/-- One `plotter.Line`: its copied points (horizontal index, value) and its
colour. -/
structure Line where
  points : List (ℕ × ℚ)
  color : RGBA
deriving DecidableEq

/-- The chart assembled by `plotData`, including the arguments of the final
`p.Save(8*vg.Inch, 4*vg.Inch, "plot.png")` call. -/
structure Chart where
  title : String
  xLabel : String
  yLabel : String
  lines : List Line
  legend : List (String × Line)
  saveWidthInches : ℕ
  saveHeightInches : ℕ
  savePath : String
deriving DecidableEq

/-- The window start
`startIndex := len(prices) - int(math.Min(90, float64(len(prices))))`
(main.go:122).  `math.Min` on exact small integers is `min`, and the `int`
conversion of an integer-valued float is exact. -/
def startIndex (prices : List ℚ) : ℕ :=
  prices.length - min 90 prices.length

/-- The historical window actually plotted: `prices[startIndex:]`. -/
def historicalWindow (prices : List ℚ) : List ℚ :=
  prices.drop (startIndex prices)

/-- The loop of main.go:124-128: `stockPoints[i-startIndex] =
(float64(i-startIndex), prices[i])` for `i` from `startIndex` to
`len(prices)-1`, i.e. the window values paired with indices starting at 0. -/
def stockPoints (prices : List ℚ) : List (ℕ × ℚ) :=
  (historicalWindow prices).enum

/-- The loop of main.go:130-134: `predPoints[i] =
(float64(len(prices)-startIndex+i), predictions[i])`. -/
def predPoints (prices predictions : List ℚ) : List (ℕ × ℚ) :=
  predictions.enum.map fun p => (prices.length - startIndex prices + p.1, p.2)

/-- The pure chart assembly of `plotData` (main.go:117-144) together with the
`p.Save` arguments of main.go:146: title, axis labels, the red stock line and
green prediction line, both legend entries, and the 8x4 inch PNG target. -/
def buildChart (prices predictions : List ℚ) (symbol : String) : Chart :=
  let stockLine : Line :=
    { points := stockPoints prices, color := ⟨255, 0, 0, 255⟩ }
  let predLine : Line :=
    { points := predPoints prices predictions, color := ⟨0, 255, 0, 255⟩ }
  { title := "Stock Prices and Predictions for " ++ symbol
    xLabel := "Days"
    yLabel := "Price"
    lines := [stockLine, predLine]
    legend := [("Stock", stockLine), ("Prediction", predLine)]
    saveWidthInches := 8
    saveHeightInches := 4
    savePath := "plot.png" }

/-- The function `plotData` (main.go:116-147): assembles the chart and saves it; the only
failure mode is the `p.Save` file write, whose outcome `saveErr` the
environment supplies (`plotter.NewLine` never fails on finite in-memory
points, and its error is discarded by the source anyway). -/
def plotData (saveErr : Option String) (prices predictions : List ℚ)
    (symbol : String) : Except String Chart :=
  match saveErr with
  | some e => .error e
  | none => .ok (buildChart prices predictions symbol)

/-! ## The fetch-button handler (main.go:161-203) -/

/-- One API data point, `StockData` (main.go:32-36). -/
structure StockData where
  symbol : String
  close : ℚ
  date : String

/-- Which branch of the button handler terminated the request. -/
inductive PipelineOutcome where
  | fetchError (msg : String) : PipelineOutcome
  | noData : PipelineOutcome
  | insufficientData : PipelineOutcome
  | arimaError (e : GoError) : PipelineOutcome
  | plotError (msg : String) : PipelineOutcome
  | success (chart : Chart) : PipelineOutcome

/-- Result of one button press: terminating branch, ordered side-effect trace,
log lines. -/
structure PipelineResult where
  outcome : PipelineOutcome
  events : List Event
  log : List String

/-- Go `%v` rendering of the price slice in the log line of main.go:181;
number formatting is abstracted to `toString` on `ℚ`. -/
def showPrices (prices : List ℚ) : String :=
  "[" ++ String.intercalate " " (prices.map toString) ++ "]"

/-- Log lines emitted by the button handler before the predictor is invoked
(main.go:169 and main.go:181). -/
def pipelineLogPrefix (data : List StockData) (symbol : String) : List String :=
  ["Fetched " ++ toString data.length ++ " data points for symbol: " ++ symbol,
    "Prices for " ++ symbol ++ ": " ++ showPrices (data.map (·.close))]

/-- The fetch-button callback (main.go:161-203): fetch, empty-data guard,
extract close prices, `len(prices) < 2` guard, `callPythonARIMA`, `plotData`,
image update.  `fetchResult` is the outcome of `fetchStockData` and `saveErr`
the outcome of the chart file write; the chart file is written exactly when
`plotData` succeeds. -/
def fetchPipeline (fetchResult : Except String (List StockData))
    (w : ArimaWorld) (saveErr : Option String) (symbol : String) :
    PipelineResult :=
  match fetchResult with
  | .error e => ⟨.fetchError e, [], ["Error fetching data: " ++ e]⟩
  | .ok data =>
    if data.length = 0 then
      ⟨.noData, [],
        ["Fetched " ++ toString data.length ++ " data points for symbol: " ++ symbol,
          "No data returned for symbol: " ++ symbol]⟩
    else
      let prices := data.map (·.close)
      if prices.length < 2 then
        ⟨.insufficientData, [],
          pipelineLogPrefix data symbol ++ ["Not enough data points for predictions."]⟩
      else
        let ar := callPythonARIMA w prices
        match ar.result with
        | .error e =>
            ⟨.arimaError e, ar.events,
              pipelineLogPrefix data symbol ++ ar.log ++
                ["Error calling ARIMA prediction: " ++ e.message]⟩
        | .ok predictions =>
          match plotData saveErr prices predictions symbol with
          | .error e =>
              ⟨.plotError e, ar.events,
                pipelineLogPrefix data symbol ++ ar.log ++ ["Error plotting data: " ++ e]⟩
          | .ok chart =>
              ⟨.success chart,
                ar.events ++ [.writeChart "plot.png", .updateImage],
                pipelineLogPrefix data symbol ++ ar.log⟩

/-! ## Reduction lemmas -/

/-- Reduction of `callPythonARIMA` on the branch where the process runs to
completion (main.go:93-113): the trace and the log are branch-independent
except for the final result. -/
theorem callPythonARIMA_exited (w : ArimaWorld) (prices : List ℚ)
    (name : String) (status : ℕ) (out : RawStdout) (stderrText : String)
    (hstage : w.tempFile = .ok name) (hwrite : w.writeTemp = .ok ())
    (hrun : w.run = .exited status out stderrText) :
    callPythonARIMA w prices =
      ⟨(if status ≠ 0 then
          .error (.execError ("exit status " ++ toString status))
        else
          match decodeStdout out with
          | .error diag => .error (.unmarshalError diag)
          | .ok preds => .ok preds),
        [.createTemp name, .spawn name,
          .writeStdin (forecastRequestJSON prices), .closeStdin,
          .collectOutputs, .removeTemp name],
        (if status ≠ 0 then
          ["Error calling ARIMA prediction: exit status " ++
            toString status ++ " Stderr: " ++ stderrText]
        else [])⟩ := by
  obtain ⟨tf, wt, run⟩ := w
  dsimp only at hstage hwrite hrun
  subst hstage hwrite hrun
  by_cases h : status = 0
  · subst h
    simp only [callPythonARIMA]
    cases hdec : decodeStdout out <;> simp [hdec]
  · simp [callPythonARIMA, h]

/-- Reduction of the button handler past its guards: with at least two data
points the request proceeds to `callPythonARIMA` and then `plotData`. -/
theorem fetchPipeline_invoke (data : List StockData) (w : ArimaWorld)
    (saveErr : Option String) (symbol : String) (h2 : 2 ≤ data.length) :
    fetchPipeline (.ok data) w saveErr symbol =
      match (callPythonARIMA w (data.map (·.close))).result with
      | .error e =>
          ⟨.arimaError e, (callPythonARIMA w (data.map (·.close))).events,
            pipelineLogPrefix data symbol ++
              (callPythonARIMA w (data.map (·.close))).log ++
              ["Error calling ARIMA prediction: " ++ e.message]⟩
      | .ok predictions =>
        match plotData saveErr (data.map (·.close)) predictions symbol with
        | .error e =>
            ⟨.plotError e, (callPythonARIMA w (data.map (·.close))).events,
              pipelineLogPrefix data symbol ++
                (callPythonARIMA w (data.map (·.close))).log ++
                ["Error plotting data: " ++ e]⟩
        | .ok chart =>
            ⟨.success chart,
              (callPythonARIMA w (data.map (·.close))).events ++
                [.writeChart "plot.png", .updateImage],
              pipelineLogPrefix data symbol ++
                (callPythonARIMA w (data.map (·.close))).log⟩ := by
  have h0 : ¬ data.length = 0 := by omega
  have h1 : ¬ (data.map (·.close)).length < 2 := by
    rw [List.length_map]; omega
  simp only [fetchPipeline, if_neg h0, if_neg h1]

/-- C8: for every forecast request (on every run in which the child process is
actually executed), `callPythonARIMA` writes exactly one structured JSON
payload of shape `(obj [prices: arr of nums])` — the request values in their
original order — to the standard input of the child, and the input stream is
closed after the write and before the outputs are collected (the full event
trace makes the ordering explicit). -/
theorem invoke_stdin_protocol (w : ArimaWorld) (prices : List ℚ)
    (name : String) (status : ℕ) (out : RawStdout) (stderrText : String)
    (hstage : w.tempFile = .ok name) (hwrite : w.writeTemp = .ok ())
    (hrun : w.run = .exited status out stderrText) :
    (callPythonARIMA w prices).events.filterMap Event.stdinPayload =
      [Json.obj [("prices", Json.arr (prices.map Json.num))]] ∧
    (callPythonARIMA w prices).events =
      [.createTemp name, .spawn name,
        .writeStdin (forecastRequestJSON prices), .closeStdin,
        .collectOutputs, .removeTemp name] := by
  rw [callPythonARIMA_exited w prices name status out stderrText hstage hwrite hrun]
  exact ⟨rfl, rfl⟩

/-- Witness for C8 at a concrete world and price list. -/
theorem invoke_stdin_protocol_witness :
    (callPythonARIMA
        ⟨.ok "/tmp/arima_predict_1.exe", .ok (),
          .exited 0 (.valid (.arr [.num 105])) ""⟩
        [100, 101]).events.filterMap Event.stdinPayload =
      [Json.obj [("prices", Json.arr ([100, 101].map Json.num))]] :=
  (invoke_stdin_protocol _ [100, 101] "/tmp/arima_predict_1.exe" 0
    (.valid (.arr [.num 105])) "" rfl rfl rfl).1

/-- C10: determinism.  The serialized request payload delivered to the child
depends only on the price list — two runs under different environments write
identical payloads — and the assembled chart (all X and Y coordinates of both
series, and everything else in the `Chart`) is a function of the prices,
forecast and symbol alone. -/
theorem pipeline_deterministic (w₁ w₂ : ArimaWorld) (prices : List ℚ)
    (n₁ n₂ : String) (s₁ s₂ : ℕ) (o₁ o₂ : RawStdout) (e₁ e₂ : String)
    (h₁s : w₁.tempFile = .ok n₁) (h₁w : w₁.writeTemp = .ok ())
    (h₁r : w₁.run = .exited s₁ o₁ e₁)
    (h₂s : w₂.tempFile = .ok n₂) (h₂w : w₂.writeTemp = .ok ())
    (h₂r : w₂.run = .exited s₂ o₂ e₂) :
    (callPythonARIMA w₁ prices).events.filterMap Event.stdinPayload =
      (callPythonARIMA w₂ prices).events.filterMap Event.stdinPayload ∧
    ∀ (p₁ p₂ f₁ f₂ : List ℚ) (t₁ t₂ : String),
      p₁ = p₂ → f₁ = f₂ → t₁ = t₂ →
        buildChart p₁ f₁ t₁ = buildChart p₂ f₂ t₂ := by
  constructor
  · rw [callPythonARIMA_exited w₁ prices n₁ s₁ o₁ e₁ h₁s h₁w h₁r,
      callPythonARIMA_exited w₂ prices n₂ s₂ o₂ e₂ h₂s h₂w h₂r]
    rfl
  · rintro p₁ p₂ f₁ f₂ t₁ t₂ rfl rfl rfl
    rfl

/-- Witness for C10 at two concrete, distinct worlds. -/
theorem pipeline_deterministic_witness :
    (callPythonARIMA
        ⟨.ok "/tmp/arima_predict_2.exe", .ok (),
          .exited 0 (.valid (.arr [.num 105])) ""⟩
        [100, 101]).events.filterMap Event.stdinPayload =
      (callPythonARIMA
        ⟨.ok "/tmp/arima_predict_3.exe", .ok (),
          .exited 1 (.invalid "boom" "diag") "model failed"⟩
        [100, 101]).events.filterMap Event.stdinPayload :=
  (pipeline_deterministic _ _ [100, 101]
    "/tmp/arima_predict_2.exe" "/tmp/arima_predict_3.exe" 0 1
    (.valid (.arr [.num 105])) (.invalid "boom" "diag") "" "model failed"
    rfl rfl rfl rfl rfl rfl).1

/-- C5 counterexample: with the predictor exiting with status 1 and stderr
"model failed", the returned error is the bare Go exec error "exit status 1"
(`cmd.Run` returns an `ExitError`; `cmd.Stderr` was a buffer, so the captured
stderr is only logged at main.go:102, never attached to the error) — the
stderr text does not appear in the returned error. -/
theorem invoke_nonzero_exit_counterexample :
    (callPythonARIMA
        ⟨.ok "/tmp/arima_predict_4.exe", .ok (),
          .exited 1 (.valid .null) "model failed"⟩
        [100, 101]).result = .error (.execError "exit status 1") ∧
    ¬ ("model failed".data <:+:
        (GoError.execError "exit status 1").message.data) := by
  refine ⟨rfl, ?_⟩
  decide

/-- C5 (amended): when the predictor exits non-zero, the invocation fails with
the process-execution error carrying the exit status, the captured stderr text
appears in the diagnostic log (not in the returned error), no forecast is
produced, and no chart file is written or updated. -/
theorem invoke_nonzero_exit (data : List StockData) (w : ArimaWorld)
    (saveErr : Option String) (symbol name : String) (status : ℕ)
    (out : RawStdout) (stderrText : String)
    (hlen : 2 ≤ data.length)
    (hstage : w.tempFile = .ok name) (hwrite : w.writeTemp = .ok ())
    (hrun : w.run = .exited status out stderrText) (hstatus : status ≠ 0) :
    (fetchPipeline (.ok data) w saveErr symbol).outcome =
      .arimaError (.execError ("exit status " ++ toString status)) ∧
    (∃ line ∈ (fetchPipeline (.ok data) w saveErr symbol).log,
      stderrText.data <:+: line.data) ∧
    (fetchPipeline (.ok data) w saveErr symbol).events.countP
      Event.isWriteChart = 0 := by
  rw [fetchPipeline_invoke data w saveErr symbol hlen,
    callPythonARIMA_exited w (data.map (·.close)) name status out stderrText
      hstage hwrite hrun]
  refine ⟨?_, ?_, ?_⟩
  · simp [if_pos hstatus]
  · refine ⟨"Error calling ARIMA prediction: exit status " ++ toString status ++
      " Stderr: " ++ stderrText, ?_, ?_⟩
    · simp [if_pos hstatus]
    · rw [String.data_append]
      exact (List.suffix_append _ _).isInfix
  · simp [if_pos hstatus, Event.isWriteChart]

/-- Witness for C5 (amended) at a concrete world: exit status 1, stderr
"model failed". -/
theorem invoke_nonzero_exit_witness :
    (fetchPipeline
        (.ok [⟨"AAPL", 100, "2024-01-02"⟩, ⟨"AAPL", 101, "2024-01-03"⟩])
        ⟨.ok "/tmp/arima_predict_5.exe", .ok (),
          .exited 1 (.valid .null) "model failed"⟩
        none "AAPL").outcome =
      .arimaError (.execError ("exit status " ++ toString 1)) ∧
    (∃ line ∈ (fetchPipeline
        (.ok [⟨"AAPL", 100, "2024-01-02"⟩, ⟨"AAPL", 101, "2024-01-03"⟩])
        ⟨.ok "/tmp/arima_predict_5.exe", .ok (),
          .exited 1 (.valid .null) "model failed"⟩
        none "AAPL").log, "model failed".data <:+: line.data) ∧
    (fetchPipeline
        (.ok [⟨"AAPL", 100, "2024-01-02"⟩, ⟨"AAPL", 101, "2024-01-03"⟩])
        ⟨.ok "/tmp/arima_predict_5.exe", .ok (),
          .exited 1 (.valid .null) "model failed"⟩
        none "AAPL").events.countP Event.isWriteChart = 0 :=
  invoke_nonzero_exit
    [⟨"AAPL", 100, "2024-01-02"⟩, ⟨"AAPL", 101, "2024-01-03"⟩]
    ⟨.ok "/tmp/arima_predict_5.exe", .ok (),
      .exited 1 (.valid .null) "model failed"⟩
    none "AAPL" "/tmp/arima_predict_5.exe" 1 (.valid .null) "model failed"
    (by decide) rfl rfl rfl (by decide)

/-- C6 counterexample: predictor exits 0 writing "not json" to stdout.  The
returned error is the Go JSON syntax diagnostic (character and offset
information); the raw output "not json" does not appear in the returned
error, contradicting the claim that it is carried. -/
theorem invoke_decode_failure_counterexample :
    (callPythonARIMA
        ⟨.ok "/tmp/arima_predict_6.exe", .ok (),
          .exited 0
            (.invalid "not json"
              "invalid character \x27o\x27 in literal null (expecting \x27u\x27)")
            ""⟩
        [100, 101]).result =
      .error (.unmarshalError
        "invalid character \x27o\x27 in literal null (expecting \x27u\x27)") ∧
    ¬ ("not json".data <:+:
        (GoError.unmarshalError
          "invalid character \x27o\x27 in literal null (expecting \x27u\x27)").message.data) := by
  refine ⟨rfl, ?_⟩
  decide

/-- C6 (amended): when the process exits with status zero but its standard
output does not decode as an ordered numeric array, the invocation fails with
the JSON decode error carrying the decode diagnostic (but not the raw output),
and no forecast is returned. -/
theorem invoke_decode_failure (w : ArimaWorld) (prices : List ℚ)
    (name : String) (out : RawStdout) (stderrText diag : String)
    (hstage : w.tempFile = .ok name) (hwrite : w.writeTemp = .ok ())
    (hrun : w.run = .exited 0 out stderrText)
    (hdec : decodeStdout out = .error diag) :
    (callPythonARIMA w prices).result = .error (.unmarshalError diag) ∧
    ∀ preds : List ℚ, (callPythonARIMA w prices).result ≠ .ok preds := by
  rw [callPythonARIMA_exited w prices name 0 out stderrText hstage hwrite hrun]
  simp [hdec]

/-- Witness for C6 (amended) at a concrete world whose stdout is the JSON
string "oops" (well-formed JSON that is not a numeric array). -/
theorem invoke_decode_failure_witness :
    (callPythonARIMA
        ⟨.ok "/tmp/arima_predict_7.exe", .ok (),
          .exited 0 (.valid (.str "oops")) ""⟩
        [100, 101]).result =
      .error (.unmarshalError
        "json: cannot unmarshal string into Go value of type []float64") :=
  (invoke_decode_failure _ [100, 101] "/tmp/arima_predict_7.exe"
    (.valid (.str "oops")) "" _ rfl rfl rfl rfl).1

/-- C1: a request whose price list has fewer than two elements never spawns
the predictor, and when a price list was actually formed (the fetched data is
nonempty — with no data the handler already returns at the empty-data guard,
before a request exists) the request fails at the insufficient-data guard of
main.go:183. -/
theorem insufficient_data_guard (data : List StockData) (w : ArimaWorld)
    (saveErr : Option String) (symbol : String) (hlt : data.length < 2) :
    (fetchPipeline (.ok data) w saveErr symbol).events.countP Event.isSpawn = 0 ∧
    (data ≠ [] →
      (fetchPipeline (.ok data) w saveErr symbol).outcome = .insufficientData) := by
  match data with
  | [] => exact ⟨by simp [fetchPipeline], fun h => absurd rfl h⟩
  | d :: rest =>
    have hr : rest = [] := by
      cases rest with
      | nil => rfl
      | cons b t =>
        exfalso
        rw [List.length_cons, List.length_cons] at hlt
        omega
    subst hr
    refine ⟨?_, fun _ => ?_⟩ <;> simp [fetchPipeline]

/-- Witness for C1: one single data point. -/
theorem insufficient_data_guard_witness :
    (fetchPipeline (.ok [⟨"AAPL", 100, "2024-01-02"⟩])
        ⟨.ok "/tmp/arima_predict_8.exe", .ok (),
          .exited 0 (.valid (.arr [.num 105])) ""⟩
        none "AAPL").events.countP Event.isSpawn = 0 ∧
    (fetchPipeline (.ok [⟨"AAPL", 100, "2024-01-02"⟩])
        ⟨.ok "/tmp/arima_predict_8.exe", .ok (),
          .exited 0 (.valid (.arr [.num 105])) ""⟩
        none "AAPL").outcome = .insufficientData :=
  ⟨(insufficient_data_guard [⟨"AAPL", 100, "2024-01-02"⟩] _ none "AAPL"
      (by decide)).1,
    (insufficient_data_guard [⟨"AAPL", 100, "2024-01-02"⟩]
      ⟨.ok "/tmp/arima_predict_8.exe", .ok (),
        .exited 0 (.valid (.arr [.num 105])) ""⟩ none "AAPL"
      (by decide)).2 (by simp)⟩

/-- Once staging succeeded, the event trace of `callPythonARIMA` is one of two
literal traces (no process run, or a full run), both ending with the deferred
artifact removal. -/
theorem callPythonARIMA_events_cases (w : ArimaWorld) (prices : List ℚ)
    (name : String) (hstage : w.tempFile = .ok name) :
    (callPythonARIMA w prices).events =
      [.createTemp name, .removeTemp name] ∨
    (callPythonARIMA w prices).events =
      [.createTemp name, .spawn name,
        .writeStdin (forecastRequestJSON prices), .closeStdin,
        .collectOutputs, .removeTemp name] := by
  obtain ⟨tf, wt, run⟩ := w
  dsimp only at hstage
  subst hstage
  cases wt with
  | error e => exact Or.inl rfl
  | ok u =>
    cases u
    cases run with
    | launchFailure msg => exact Or.inl rfl
    | exited status out stderrText =>
      right
      rw [callPythonARIMA_exited _ prices name status out stderrText rfl rfl rfl]

/-- No invocation of `callPythonARIMA` ever writes the chart file. -/
theorem callPythonARIMA_no_writeChart (w : ArimaWorld) (prices : List ℚ) :
    (callPythonARIMA w prices).events.countP Event.isWriteChart = 0 := by
  obtain ⟨tf, wt, run⟩ := w
  cases tf with
  | error e => rfl
  | ok name =>
    rcases callPythonARIMA_events_cases ⟨.ok name, wt, run⟩ prices name rfl with h | h <;>
      simp [h, Event.isWriteChart]

/-- A list with no `writeChart` event is untouched by truncation at the first
`writeChart`. -/
theorem takeWhile_eq_self_of_no_writeChart (l : List Event)
    (h : l.countP Event.isWriteChart = 0) :
    l.takeWhile (fun e => !e.isWriteChart) = l := by
  induction l with
  | nil => rfl
  | cons e t ih =>
    rw [List.countP_eq_zero] at h
    have he : Event.isWriteChart e = false := by
      cases hb : Event.isWriteChart e
      · rfl
      · exact absurd hb (h e (List.mem_cons_self e t))
    have ht : t.countP Event.isWriteChart = 0 :=
      List.countP_eq_zero.mpr fun a ha => h a (List.mem_cons_of_mem e ha)
    simp [List.takeWhile_cons, he, ih ht]

/-- Truncating at the first `writeChart` of `l ++ writeChart :: rest` gives
exactly `l` when `l` itself contains no `writeChart`. -/
theorem takeWhile_append_writeChart (l : List Event)
    (h : l.countP Event.isWriteChart = 0) (path : String) (rest : List Event) :
    (l ++ Event.writeChart path :: rest).takeWhile
      (fun e => !e.isWriteChart) = l := by
  induction l with
  | nil => simp [List.takeWhile_cons, Event.isWriteChart]
  | cons e t ih =>
    rw [List.countP_eq_zero] at h
    have he : Event.isWriteChart e = false := by
      cases hb : Event.isWriteChart e
      · rfl
      · exact absurd hb (h e (List.mem_cons_self e t))
    have ht : t.countP Event.isWriteChart = 0 :=
      List.countP_eq_zero.mpr fun a ha => h a (List.mem_cons_of_mem e ha)
    simp [List.takeWhile_cons, he, ih ht]

/-- C4: once the artifact is staged (`ioutil.TempFile` succeeded), the
deferred `os.Remove` of main.go:84 deletes it exactly once on every exit path
of `callPythonARIMA` — write failure, launch failure, non-zero exit,
decode failure and normal return alike — as the last action before control
returns to the caller, and in the full request every removal happens strictly
before any chart write (the trace up to the first `writeChart` already holds
every `removeTemp`). -/
theorem artifact_release (w : ArimaWorld) (prices : List ℚ) (name : String)
    (fetchResult : Except String (List StockData)) (saveErr : Option String)
    (symbol : String) (hstage : w.tempFile = .ok name) :
    (callPythonARIMA w prices).events.countP Event.isRemoveTemp = 1 ∧
    (callPythonARIMA w prices).events.getLast? = some (.removeTemp name) ∧
    ((fetchPipeline fetchResult w saveErr symbol).events.takeWhile
        (fun e => !e.isWriteChart)).countP Event.isRemoveTemp =
      (fetchPipeline fetchResult w saveErr symbol).events.countP
        Event.isRemoveTemp := by
  refine ⟨?_, ?_, ?_⟩
  · rcases callPythonARIMA_events_cases w prices name hstage with h | h <;>
      simp [h, Event.isRemoveTemp]
  · rcases callPythonARIMA_events_cases w prices name hstage with h | h <;>
      simp [h]
  · cases fetchResult with
    | error e => rfl
    | ok data =>
      by_cases h0 : data.length = 0
      · simp [fetchPipeline, h0]
      · by_cases h1 : (data.map (·.close)).length < 2
        · rw [List.length_map] at h1
          simp [fetchPipeline, h0, h1]
        · rw [List.length_map] at h1
          rw [fetchPipeline_invoke data w saveErr symbol (by omega)]
          have hnw := callPythonARIMA_no_writeChart w (data.map (·.close))
          cases hres : (callPythonARIMA w (data.map (·.close))).result with
          | error e =>
            simp only [hres]
            rw [takeWhile_eq_self_of_no_writeChart _ hnw]
          | ok preds =>
            cases hplot : plotData saveErr (data.map (·.close)) preds symbol with
            | error e =>
              simp only [hres, hplot]
              rw [takeWhile_eq_self_of_no_writeChart _ hnw]
            | ok chart =>
              simp only [hres, hplot]
              rw [show (callPythonARIMA w (data.map (·.close))).events ++
                    [Event.writeChart "plot.png", Event.updateImage] =
                  (callPythonARIMA w (data.map (·.close))).events ++
                    Event.writeChart "plot.png" :: [Event.updateImage] from rfl,
                takeWhile_append_writeChart _ hnw "plot.png" [Event.updateImage],
                List.countP_append]
              simp [Event.isRemoveTemp]

/-- Witness for C4 at a concrete request whose predictor run fails to decode
(exit 0, stdout not a numeric array): the artifact is still removed exactly
once, last, before any chart write. -/
theorem artifact_release_witness :
    (callPythonARIMA
        ⟨.ok "/tmp/arima_predict_9.exe", .ok (),
          .exited 0 (.valid (.str "oops")) ""⟩
        [100, 101]).events.countP Event.isRemoveTemp = 1 ∧
    (callPythonARIMA
        ⟨.ok "/tmp/arima_predict_9.exe", .ok (),
          .exited 0 (.valid (.str "oops")) ""⟩
        [100, 101]).events.getLast? =
      some (.removeTemp "/tmp/arima_predict_9.exe") ∧
    ((fetchPipeline
        (.ok [⟨"AAPL", 100, "2024-01-02"⟩, ⟨"AAPL", 101, "2024-01-03"⟩])
        ⟨.ok "/tmp/arima_predict_9.exe", .ok (),
          .exited 0 (.valid (.str "oops")) ""⟩
        none "AAPL").events.takeWhile
        (fun e => !e.isWriteChart)).countP Event.isRemoveTemp =
      (fetchPipeline
        (.ok [⟨"AAPL", 100, "2024-01-02"⟩, ⟨"AAPL", 101, "2024-01-03"⟩])
        ⟨.ok "/tmp/arima_predict_9.exe", .ok (),
          .exited 0 (.valid (.str "oops")) ""⟩
        none "AAPL").events.countP Event.isRemoveTemp :=
  artifact_release
    ⟨.ok "/tmp/arima_predict_9.exe", .ok (),
      .exited 0 (.valid (.str "oops")) ""⟩
    [100, 101] "/tmp/arima_predict_9.exe"
    (.ok [⟨"AAPL", 100, "2024-01-02"⟩, ⟨"AAPL", 101, "2024-01-03"⟩])
    none "AAPL" rfl

/-- C2: the plotted historical window is `prices[max(0, len - 90) : len]`:
equal to `prices.drop (len - min 90 len)` in general, the whole list when
`len ≤ 90`, and exactly the trailing 90 elements in original order when
`len > 90`; the horizontal indices of its plotted points are `0, 1, 2, ...`. -/
theorem historical_window_spec (prices : List ℚ) :
    historicalWindow prices =
      prices.drop (prices.length - min 90 prices.length) ∧
    (prices.length ≤ 90 → historicalWindow prices = prices) ∧
    (90 < prices.length →
      (historicalWindow prices).length = 90 ∧
      historicalWindow prices = prices.drop (prices.length - 90)) ∧
    (stockPoints prices).map Prod.fst =
      List.range (historicalWindow prices).length := by
  refine ⟨rfl, ?_, ?_, ?_⟩
  · intro h
    have : min 90 prices.length = prices.length := by omega
    simp [historicalWindow, startIndex, this]
  · intro h
    have hmin : min 90 prices.length = 90 := by omega
    constructor
    · rw [historicalWindow, startIndex, hmin, List.length_drop]
      omega
    · rw [historicalWindow, startIndex, hmin]
  · exact List.enum_map_fst _

/-- Witness for C2 on a 91-element list: the window is the trailing 90
elements. -/
theorem historical_window_spec_witness :
    90 < (List.replicate 91 (0 : ℚ)).length ∧
    (historicalWindow (List.replicate 91 (0 : ℚ))).length = 90 ∧
    historicalWindow (List.replicate 91 (0 : ℚ)) =
      (List.replicate 91 (0 : ℚ)).drop
        ((List.replicate 91 (0 : ℚ)).length - 90) := by
  have h : 90 < (List.replicate 91 (0 : ℚ)).length := by
    rw [List.length_replicate]
    omega
  rcases (historical_window_spec (List.replicate 91 (0 : ℚ))).2.2.1 h
    with ⟨h1, h2⟩
  exact ⟨h, h1, h2⟩

/-- C3: forecast point `i` is plotted at horizontal index
`len(historicalWindow) + i` — the forecast continues exactly one index past
the last historical index, with no gap and no overlap — and on the concrete
scenario `prices = [100..104]`, `forecast = [105, 106]` the historical points
occupy indices 0-4 with values 100-104 and the forecast points indices 5-6
with values 105-106. -/
theorem forecast_placement_spec (prices predictions : List ℚ) :
    (predPoints prices predictions).map Prod.fst =
      (List.range predictions.length).map
        (fun i => (historicalWindow prices).length + i) ∧
    stockPoints [100, 101, 102, 103, 104] =
      [(0, 100), (1, 101), (2, 102), (3, 103), (4, 104)] ∧
    predPoints [100, 101, 102, 103, 104] [105, 106] =
      [(5, 105), (6, 106)] := by
  refine ⟨?_, by decide, by decide⟩
  have hL : prices.length - startIndex prices =
      (historicalWindow prices).length := by
    rw [historicalWindow, List.length_drop]
  calc ((predictions.enum.map
          fun p => (prices.length - startIndex prices + p.1, p.2)).map Prod.fst)
      = predictions.enum.map
          (fun p => prices.length - startIndex prices + p.1) := by
        rw [List.map_map]; rfl
    _ = (predictions.enum.map Prod.fst).map
          (fun i => prices.length - startIndex prices + i) := by
        rw [List.map_map]; rfl
    _ = (List.range predictions.length).map
          (fun i => (historicalWindow prices).length + i) := by
        rw [List.enum_map_fst, hL]

/-- C7: with a non-empty price list and an empty forecast, `plotData` still
succeeds (the only failure mode is the file save), producing a chart whose
prediction series is empty and whose historical series is the windowed price
data. -/
theorem plot_empty_forecast (prices : List ℚ) (symbol : String)
    (_hne : prices ≠ []) :
    plotData none prices [] symbol = .ok (buildChart prices [] symbol) ∧
    (buildChart prices [] symbol).lines.map Line.points =
      [stockPoints prices, []] ∧
    (buildChart prices [] symbol).legend.map Prod.fst =
      ["Stock", "Prediction"] := by
  exact ⟨rfl, rfl, rfl⟩

/-- Witness for C7 at `prices = [100, 101]`. -/
theorem plot_empty_forecast_witness :
    plotData none [100, 101] [] "AAPL" =
      .ok (buildChart [100, 101] [] "AAPL") ∧
    (buildChart [100, 101] [] "AAPL").lines.map Line.points =
      [stockPoints [100, 101], []] :=
  ⟨(plot_empty_forecast [100, 101] "AAPL" (by simp)).1,
    (plot_empty_forecast [100, 101] "AAPL" (by simp)).2.1⟩

/-- C9: every successfully rendered chart has exactly the two labeled series
"Stock" (the historical window, red) and "Prediction" (the forecast, green,
a different colour), a legend pairing each label with its line, axis labels
"Days" and "Price", a title embedding the symbol, and is saved as an
8-by-4-inch raster image. -/
theorem chart_contents_spec (prices predictions : List ℚ) (symbol : String)
    (chart : Chart)
    (hrender : plotData none prices predictions symbol = .ok chart) :
    chart.title = "Stock Prices and Predictions for " ++ symbol ∧
    symbol.data <:+ chart.title.data ∧
    chart.xLabel = "Days" ∧
    chart.yLabel = "Price" ∧
    chart.lines =
      [{ points := stockPoints prices, color := ⟨255, 0, 0, 255⟩ },
        { points := predPoints prices predictions, color := ⟨0, 255, 0, 255⟩ }] ∧
    chart.legend =
      [("Stock", { points := stockPoints prices, color := ⟨255, 0, 0, 255⟩ }),
        ("Prediction",
          { points := predPoints prices predictions, color := ⟨0, 255, 0, 255⟩ })] ∧
    (⟨255, 0, 0, 255⟩ : RGBA) ≠ ⟨0, 255, 0, 255⟩ ∧
    chart.saveWidthInches = 8 ∧
    chart.saveHeightInches = 4 ∧
    chart.savePath = "plot.png" := by
  have hchart : chart = buildChart prices predictions symbol := by
    have := hrender
    simp only [plotData] at this
    exact (Except.ok.injEq _ _).mp this.symm
  subst hchart
  refine ⟨rfl, ?_, rfl, rfl, rfl, rfl, by decide, rfl, rfl, rfl⟩
  show symbol.data <:+ ("Stock Prices and Predictions for " ++ symbol).data
  rw [String.data_append]
  exact List.suffix_append _ _

/-- Witness for C9 at a concrete render. -/
theorem chart_contents_spec_witness :
    (buildChart [100, 101] [102] "AAPL").title =
      "Stock Prices and Predictions for " ++ "AAPL" ∧
    (buildChart [100, 101] [102] "AAPL").savePath = "plot.png" :=
  ⟨(chart_contents_spec [100, 101] [102] "AAPL" _ rfl).1,
    (chart_contents_spec [100, 101] [102] "AAPL" _ rfl).2.2.2.2.2.2.2.2.2⟩
